import Mathlib

/-!
Verification of the malscan content-disarm-and-reconstruction core.

Shallow embedding of the python sources:
  reconstruction_module/pdf_sanitizer.py, docx_sanitizer.py, txt_sanitizer.py,
  file_validator.py, secure_delete.py, quarantine.py,
  risk_analysis_module/risk_score.py, community_reputation.py,
  recommendation_engine.py, and the endpoint orchestration in main.py.
Machine integers are modelled as Nat / Int, fallible code as Except / Option,
and the filesystem state touched by the endpoints as explicit record values.
-/

/- ===================== PDF sanitizer (pdf_sanitizer.py) ===================== -/

/-- A PDF object as seen by pikepdf: a primitive leaf, a dictionary of
string-keyed entries, or an array. -/
inductive PObj where
  | prim : PObj
  | dict : List (String × PObj) → PObj
  | arr : List PObj → PObj

/-- Deletion of a key from a pikepdf dictionary, modelling
`if key in root: del root[key]` (dictionaries have unique keys, so an
unconditional filter has the same meaning). -/
def delKey (k : String) (d : List (String × PObj)) : List (String × PObj) :=
  d.filter (fun p => !(p.1 == k))

/-- The names-tree cleanup of sanitize_pdf: when the value of /Names is a
dictionary, drop its /JavaScript entry; any other value is left as is. -/
def stripNamesJS : PObj → PObj
  | PObj.dict d => PObj.dict (delKey "/JavaScript" d)
  | o => o

/-- sanitize_pdf from pdf_sanitizer.py, acting on the root (catalog)
dictionary of the document: delete /OpenAction and /AA from the root,
delete /AcroForm from the root, then remove the /JavaScript entry from the
/Names dictionary of the root. Nothing below the root is visited. -/
def sanitize_pdf (root : List (String × PObj)) : List (String × PObj) :=
  let r1 := delKey "/AA" (delKey "/OpenAction" root)
  let r2 := delKey "/AcroForm" r1
  r2.map (fun p => if p.1 == "/Names" then (p.1, stripNamesJS p.2) else p)

mutual

/-- Whether key k occurs in a PDF object at any nesting level. -/
def hasKeyObj (k : String) : PObj → Bool
  | PObj.prim => false
  | PObj.dict d => hasKeyEntries k d
  | PObj.arr xs => hasKeyElems k xs

/-- Whether key k occurs in a dictionary entry list at any nesting level. -/
def hasKeyEntries (k : String) : List (String × PObj) → Bool
  | [] => false
  | (k1, v) :: rest => k1 == k || hasKeyObj k v || hasKeyEntries k rest

/-- Whether key k occurs in an array element list at any nesting level. -/
def hasKeyElems (k : String) : List PObj → Bool
  | [] => false
  | x :: xs => hasKeyObj k x || hasKeyElems k xs

end

/-- Whether a dictionary has an entry with key k at its top level. -/
def topHasKey (k : String) (d : List (String × PObj)) : Bool :=
  d.any (fun p => p.1 == k)

/-- Whether the /Names entry of the root is a dictionary holding a
/JavaScript entry at its top level. -/
def namesTreeHasJS (d : List (String × PObj)) : Bool :=
  d.any (fun p =>
    p.1 == "/Names" &&
      match p.2 with
      | PObj.dict e => topHasKey "/JavaScript" e
      | _ => false)

/-- A well-formed catalog of a one-page document whose single page carries an
additional-actions dictionary: the construct sanitize_pdf never visits. -/
def aaPageRoot : List (String × PObj) :=
  [("/Type", PObj.prim),
   ("/Pages", PObj.dict
     [("/Type", PObj.prim),
      ("/Count", PObj.prim),
      ("/Kids", PObj.arr
        [PObj.dict [("/Type", PObj.prim), ("/AA", PObj.dict [("/O", PObj.prim)])]])])]

/- ===================== Risk aggregation (risk_score.py) ===================== -/

/-- calculate_risk from risk_score.py: the sum of the four component scores,
capped above at 100 by min. Python integers are unbounded, hence Int. -/
def calculate_risk (static_score behavior_score source_score community : Int) : Int :=
  min (static_score + behavior_score + source_score + community) 100

/- ============== Community reputation (community_reputation.py) ============== -/

/-- A community voting record, the value type of the reputation table. -/
structure VoteRecord where
  malicious : Nat
  clean : Nat
  deriving DecidableEq

/-- The in-memory reputation table community_db of community_reputation.py. -/
def community_db : List (String × VoteRecord) :=
  [("hash1", VoteRecord.mk 8 1), ("hash2", VoteRecord.mk 0 10)]

/-- community_score from community_reputation.py. The python computes
`int((malicious / total) * 20)` in float arithmetic and truncates toward
zero; for the non-negative counts at hand this is exact rational truncation,
which is Nat division of malicious * 20 by total. A record whose two counts
are both zero makes the python raise ZeroDivisionError, modelled as none.
A digest with no record returns 0. -/
def community_score (db : List (String × VoteRecord)) (file_hash : String) : Option Nat :=
  match db.lookup file_hash with
  | none => some 0
  | some data =>
    let total := data.malicious + data.clean
    if total = 0 then none
    else some (data.malicious * 20 / total)

/-- Modelled from the words of the specification, for comparison with
community_score: the same lookup, but returning
round of (malicious / (malicious + clean)) * 20, rounding to the nearest
integer instead of truncating. -/
def community_score_spec (db : List (String × VoteRecord)) (file_hash : String) : Option Int :=
  match db.lookup file_hash with
  | none => some 0
  | some data =>
    let total := data.malicious + data.clean
    if total = 0 then none
    else some (round (((data.malicious : ℚ) / (total : ℚ)) * 20))

/- ============== Recommendation engine (recommendation_engine.py) ============== -/

/-- The high tier message of recommend. -/
def DELETE_MSG : String := "Delete immediately. High risk malware detected."

/-- The middle tier message of recommend. -/
def QUARANTINE_MSG : String := "Quarantine the file and avoid execution."

/-- The low tier message of recommend. -/
def SAFE_MSG : String := "File appears safe. No action required."

/-- recommend from recommendation_engine.py. -/
def recommend (risk_score : Int) : String :=
  if risk_score ≥ 70 then DELETE_MSG
  else if risk_score ≥ 30 then QUARANTINE_MSG
  else SAFE_MSG

/-- Severity rank of a recommendation message, for the monotonicity claim. -/
def severity (msg : String) : Nat :=
  if msg = DELETE_MSG then 2
  else if msg = QUARANTINE_MSG then 1
  else 0

/- ===================== File validator (file_validator.py) ===================== -/

/-- Index of the last occurrence of a character in a character list,
modelling str.rfind (none standing for the python result -1). -/
def lastIdxOf (c : Char) (l : List Char) : Option Nat :=
  ((List.range l.length).filter (fun i => l.get? i == some c)).getLast?

/-- The extension part of os.path.splitext on a posix path: the suffix from
the last dot that lies after the last slash, provided some character other
than a dot stands between the slash and that dot; otherwise empty. -/
def splitextExt (p : List Char) : List Char :=
  let sepIdx : Int :=
    match lastIdxOf '/' p with
    | none => -1
    | some i => (i : Int)
  let dotIdx : Int :=
    match lastIdxOf '.' p with
    | none => -1
    | some i => (i : Int)
  if sepIdx < dotIdx then
    if (List.range p.length).any (fun j =>
        decide (sepIdx < (j : Int)) && decide ((j : Int) < dotIdx) &&
          !(p.get? j == some '.')) then
      p.drop dotIdx.toNat
    else []
  else []

/-- The supported extension set ALLOWED_EXTENSIONS of file_validator.py. -/
def ALLOWED_EXTENSIONS : List String := [".pdf", ".docx", ".txt"]

/-- validate_file from file_validator.py: reject an empty filename, lowercase
the filename, take the splitext extension, reject it unless it is in the
supported set, and return it. -/
def validate_file (filename : String) : Except String String :=
  if filename = "" then Except.error "No filename provided"
  else
    let ext := String.mk (splitextExt (filename.data.map Char.toLower))
    if ALLOWED_EXTENSIONS.contains ext then Except.ok ext
    else Except.error ("Unsupported file type: " ++ ext)

/- ================ Reconstruct endpoint orchestration (main.py) ================ -/

/-- Observable filesystem-mutating steps of the reconstruct endpoint, in the
order they are executed: persisting the upload, hashing it, running the
selected sanitizer, and moving the original into quarantine. -/
inductive Ev where
  | save : Ev
  | hash : Ev
  | sanitize : Ev
  | quarantine : Ev
  deriving DecidableEq

/-- Failure outcomes of the reconstruct endpoint. -/
inductive RError where
  | validationError : String → RError
  | sanitizationError : RError
  | unsupportedFileType : RError
  deriving DecidableEq

/-- reconstruct_file from main.py as a trace semantics: validate the
filename; on success save the upload and hash it, then dispatch on the
extension; a sanitizer that raises (sanitizeOk = false) aborts before the
quarantine step; an extension outside the three handled ones raises the
unsupported-file-type HTTPException after the save. Returns the list of
executed filesystem steps and the failure outcome, if any. -/
def reconstruct_file (filename : String) (sanitizeOk : Bool) : List Ev × Option RError :=
  match validate_file filename with
  | Except.error m => ([], some (RError.validationError m))
  | Except.ok ext =>
    let evs := [Ev.save, Ev.hash]
    if ext == ".pdf" then
      if sanitizeOk then (evs ++ [Ev.sanitize, Ev.quarantine], none)
      else (evs, some RError.sanitizationError)
    else if ext == ".docx" then
      if sanitizeOk then (evs ++ [Ev.sanitize, Ev.quarantine], none)
      else (evs, some RError.sanitizationError)
    else if ext == ".txt" then
      if sanitizeOk then (evs ++ [Ev.sanitize, Ev.quarantine], none)
      else (evs, some RError.sanitizationError)
    else (evs, some RError.unsupportedFileType)

/- ===================== Secure delete (secure_delete.py, main.py) ===================== -/

/-- os.urandom(size) for the pass of index i, drawn from an oracle giving
the random byte at each position of each pass. -/
def urandom (oracle : Nat → Nat → Nat) (i size : Nat) : List Nat :=
  (List.range size).map (oracle i)

/-- The byte content of the file at the moment os.remove runs, produced by
secure_delete: open(path, "wb") truncates the file to length zero and puts
the write cursor at the start, and each f.write then appends at the cursor,
so the passes land one after the other. -/
def overwrite_passes (oracle : Nat → Nat → Nat) (passes size : Nat) : List Nat :=
  (List.range passes).foldl (fun acc i => acc ++ urandom oracle i size) []

/-- secure_delete from secure_delete.py over one file, returning the final
file state (none = absent) and the byte content the file held immediately
before the unlink (empty when the function returned early on absence). -/
def secure_delete_run (oracle : Nat → Nat → Nat) (passes : Nat)
    (file : Option (List Nat)) : Option (List Nat) × List Nat :=
  match file with
  | none => (none, [])
  | some data => (none, overwrite_passes oracle passes data.length)

/-- The quarantine directory as seen by the secure-delete endpoint: the
artifact file keyed by the digest and its metadata sidecar. -/
structure QFs where
  artifact : Option (List Nat)
  meta : Option (List Nat)
  deriving DecidableEq

/-- secure_delete_file from main.py: call secure_delete on the quarantined
artifact if it exists, then on the metadata sidecar if it exists, and
report success. -/
def secure_delete_file (oracle : Nat → Nat → Nat) (fs : QFs) : QFs × String :=
  let fs1 :=
    if fs.artifact.isSome then
      QFs.mk (secure_delete_run oracle 2 fs.artifact).1 fs.meta
    else fs
  let fs2 :=
    if fs1.meta.isSome then
      QFs.mk fs1.artifact (secure_delete_run oracle 2 fs1.meta).1
    else fs1
  (fs2, "success")

/- ===================== Docx sanitizer (docx_sanitizer.py) ===================== -/

/-- A paragraph of a word-processing document: its text together with a flag
for any non-text payload it carries in the source. -/
structure Paragraph where
  text : String
  hasNonText : Bool

/-- A docx package: the named parts of its zip archive and the paragraphs of
its main document part. -/
structure DocxPackage where
  parts : List String
  paragraphs : List Paragraph

/-- The name of the macro project part of a docx archive. -/
def VBA_PART : String := "word/vbaProject.bin"

/-- Document() with no argument in python-docx: the built-in minimal
template, which carries no macro project part and no paragraphs beyond an
empty body. -/
def newDocument : DocxPackage :=
  DocxPackage.mk ["[Content_Types].xml", "word/document.xml"] []

/-- add_paragraph of python-docx: append a text-only paragraph to the main
document part; no archive part is added. -/
def add_paragraph (d : DocxPackage) (t : String) : DocxPackage :=
  DocxPackage.mk d.parts (d.paragraphs ++ [Paragraph.mk t false])

/-- sanitize_docx from docx_sanitizer.py: open the source, create a fresh
minimal document, append the text of each source paragraph in order, and
save the fresh document. -/
def sanitize_docx (source : DocxPackage) : DocxPackage :=
  source.paragraphs.foldl (fun clean para => add_paragraph clean para.text) newDocument

/- ===================== Text sanitizer (txt_sanitizer.py) ===================== -/

/-- Whether a byte is a valid utf-8 continuation byte within given bounds. -/
def contOk (lo hi b : Nat) : Bool := lo ≤ b && b ≤ hi

/-- The utf-8 decoder of the python runtime under errors="ignore", over the
codepoints it produces: every invalid maximal subpart is dropped and
decoding restarts at the offending byte; a sequence truncated at the end of
input is dropped. The constrained ranges of the first continuation byte
after leads 0xE0, 0xED, 0xF0, 0xF4 exclude overlong forms, surrogates and
values above 0x10FFFF, exactly as the runtime does. -/
def utf8DecodeIgnore : List Nat → List Nat
  | [] => []
  | b :: rest =>
    if b < 0x80 then b :: utf8DecodeIgnore rest
    else if b < 0xC2 then utf8DecodeIgnore rest
    else if b < 0xE0 then
      match rest with
      | [] => []
      | b1 :: rest1 =>
        if contOk 0x80 0xBF b1 then
          ((b - 0xC0) * 64 + (b1 - 0x80)) :: utf8DecodeIgnore rest1
        else utf8DecodeIgnore (b1 :: rest1)
    else if b < 0xF0 then
      match rest with
      | [] => []
      | b1 :: rest1 =>
        if contOk (if b = 0xE0 then 0xA0 else 0x80) (if b = 0xED then 0x9F else 0xBF) b1 then
          match rest1 with
          | [] => []
          | b2 :: rest2 =>
            if contOk 0x80 0xBF b2 then
              ((b - 0xE0) * 4096 + (b1 - 0x80) * 64 + (b2 - 0x80)) :: utf8DecodeIgnore rest2
            else utf8DecodeIgnore (b2 :: rest2)
        else utf8DecodeIgnore (b1 :: rest1)
    else if b < 0xF5 then
      match rest with
      | [] => []
      | b1 :: rest1 =>
        if contOk (if b = 0xF0 then 0x90 else 0x80) (if b = 0xF4 then 0x8F else 0xBF) b1 then
          match rest1 with
          | [] => []
          | b2 :: rest2 =>
            if contOk 0x80 0xBF b2 then
              match rest2 with
              | [] => []
              | b3 :: rest3 =>
                if contOk 0x80 0xBF b3 then
                  ((b - 0xF0) * 262144 + (b1 - 0x80) * 4096 + (b2 - 0x80) * 64 + (b3 - 0x80)) ::
                    utf8DecodeIgnore rest3
                else utf8DecodeIgnore (b3 :: rest3)
            else utf8DecodeIgnore (b2 :: rest2)
        else utf8DecodeIgnore (b1 :: rest1)
    else utf8DecodeIgnore rest

/-- The universal-newline translation that text-mode open applies on read
with the default newline argument, over the decoded codepoint stream: a
carriage return followed by a line feed becomes one line feed, and a lone
carriage return becomes a line feed. The translation runs after the byte
decoder, so a carriage return and a line feed separated only by dropped
invalid bytes collapse to one line feed, as the runtime does. -/
def universalNewlines : List Nat → List Nat
  | [] => []
  | 13 :: 10 :: rest => 10 :: universalNewlines rest
  | 13 :: rest => 10 :: universalNewlines rest
  | c :: rest => c :: universalNewlines rest

/-- The provenance banner of sanitize_txt, as a codepoint list. -/
def BANNER : List Nat :=
  (String.data "This is a reconstructed safe file\n\n").map Char.toNat

/-- sanitize_txt from txt_sanitizer.py at the codepoint level: read the
source bytes in text mode (utf-8 decode with errors="ignore", then
universal-newline translation), put the banner in front, write out (the
text-mode write translates each line feed to os.linesep, which is the line
feed itself on the posix host). -/
def sanitize_txt (source : List Nat) : List Nat :=
  BANNER ++ universalNewlines (utf8DecodeIgnore source)

/-- Whether a codepoint is a unicode scalar value, hence writable as text. -/
def isScalar (c : Nat) : Bool :=
  c < 0xD800 || (0xE000 ≤ c && c < 0x110000)

/- ===================== Claims about the risk pipeline ===================== -/

/-- C2 counterexample: with a negative component the aggregate of
calculate_risk is negative, so the claim that the aggregate lies in
[0, 100] for every combination of integer inputs fails on the code. -/
theorem C2_calculate_risk_counterexample :
    calculate_risk (-1) 0 0 0 = -1 ∧ ¬(0 ≤ calculate_risk (-1) 0 0 0) := by
  unfold calculate_risk
  omega

/-- C2 amended: for non-negative component scores the aggregate of
calculate_risk lies in [0, 100], saturating at 100 instead of wrapping. -/
theorem C2_calculate_risk_clamped (a b c d : Int)
    (ha : 0 ≤ a) (hb : 0 ≤ b) (hc : 0 ≤ c) (hd : 0 ≤ d) :
    0 ≤ calculate_risk a b c d ∧ calculate_risk a b c d ≤ 100 ∧
      (100 ≤ a + b + c + d → calculate_risk a b c d = 100) ∧
      (a + b + c + d ≤ 100 → calculate_risk a b c d = a + b + c + d) := by
  unfold calculate_risk
  omega

/-- C2 witness: the aggregate of the spec example 40 + 40 + 10 + 20
saturates at 100 and is non-negative. -/
theorem C2_calculate_risk_clamped_witness :
    0 ≤ calculate_risk 40 40 10 20 ∧ calculate_risk 40 40 10 20 ≤ 100 := by
  have h := C2_calculate_risk_clamped 40 40 10 20 (by decide) (by decide) (by decide) (by decide)
  exact ⟨h.1, h.2.1⟩

/-- C7: recommend returns the delete tier exactly on aggregate at least 70,
the quarantine tier exactly on [30, 70), the safe tier exactly below 30,
and its severity is monotone non-decreasing in the aggregate. -/
theorem C7_recommend_tiers (a : Int) :
    ((recommend a = DELETE_MSG) ↔ 70 ≤ a) ∧
    ((recommend a = QUARANTINE_MSG) ↔ 30 ≤ a ∧ a < 70) ∧
    ((recommend a = SAFE_MSG) ↔ a < 30) ∧
    (∀ b : Int, a ≤ b → severity (recommend a) ≤ severity (recommend b)) := by
  have hdq : DELETE_MSG ≠ QUARANTINE_MSG := by decide
  have hds : DELETE_MSG ≠ SAFE_MSG := by decide
  have hqs : QUARANTINE_MSG ≠ SAFE_MSG := by decide
  have hqd : QUARANTINE_MSG ≠ DELETE_MSG := Ne.symm hdq
  have hsd : SAFE_MSG ≠ DELETE_MSG := Ne.symm hds
  have hsq : SAFE_MSG ≠ QUARANTINE_MSG := Ne.symm hqs
  refine ⟨?_, ?_, ?_, ?_⟩
  · unfold recommend
    split_ifs with h1 h2 <;> simp only [hdq, hds, hqs, hqd, hsd, hsq, iff_true, iff_false,
      eq_self_iff_true, true_iff, false_iff] <;> omega
  · unfold recommend
    split_ifs with h1 h2 <;> simp only [hdq, hds, hqs, hqd, hsd, hsq, iff_true, iff_false,
      eq_self_iff_true, true_iff, false_iff] <;> omega
  · unfold recommend
    split_ifs with h1 h2 <;> simp only [hdq, hds, hqs, hqd, hsd, hsq, iff_true, iff_false,
      eq_self_iff_true, true_iff, false_iff] <;> omega
  · intro b hab
    unfold recommend
    split_ifs <;> simp [severity, hdq, hds, hqs, hdq.symm, hds.symm, hqs.symm] <;> omega

/-- C7 witness: severity at the lower quarantine boundary is at most the
severity at an aggregate in the delete tier. -/
theorem C7_recommend_tiers_witness :
    severity (recommend 30) ≤ severity (recommend 100) :=
  (C7_recommend_tiers 30).2.2.2 100 (by decide)

/-- C3 counterexample: on the shipped reputation table, the record of hash1
holds 8 malicious and 1 clean vote, so the vote fraction scaled to 20 is
160 / 9 and rounding to the nearest integer gives 18; community_score
returns 17, because the code truncates with int() instead of rounding. -/
theorem C3_community_score_counterexample :
    community_score community_db "hash1" = some 17 ∧
      community_score_spec community_db "hash1" = some 18 := by
  constructor
  · decide
  · unfold community_score_spec community_db
    norm_num [List.lookup]
    rw [round_eq]
    norm_num

/-- C3 amended: community_score returns 0 when the repository has no record
for the digest, and otherwise (for a record with at least one vote) returns
the vote fraction scaled to 20 and truncated toward zero, an integer never
exceeding 20. -/
theorem C3_community_score_truncates (db : List (String × VoteRecord)) (h : String) :
    (db.lookup h = none → community_score db h = some 0) ∧
    (∀ d, db.lookup h = some d → 0 < d.malicious + d.clean →
        community_score db h = some (d.malicious * 20 / (d.malicious + d.clean))) ∧
    (∀ n, community_score db h = some n → n ≤ 20) := by
  refine ⟨?_, ?_, ?_⟩
  · intro hl
    simp [community_score, hl]
  · intro d hl hpos
    have hne : d.malicious + d.clean ≠ 0 := by omega
    simp [community_score, hl, hne]
  · intro n hn
    unfold community_score at hn
    cases hlk : db.lookup h with
    | none =>
      rw [hlk] at hn
      simp at hn
      omega
    | some d =>
      rw [hlk] at hn
      by_cases hz : d.malicious + d.clean = 0
      · simp [hz] at hn
      · simp [hz] at hn
        have h1 : d.malicious * 20 ≤ (d.malicious + d.clean) * 20 := by omega
        have h2 : d.malicious * 20 / (d.malicious + d.clean) ≤
            (d.malicious + d.clean) * 20 / (d.malicious + d.clean) :=
          Nat.div_le_div_right h1
        have h3 : (d.malicious + d.clean) * 20 / (d.malicious + d.clean) = 20 :=
          Nat.mul_div_cancel_left 20 (Nat.pos_of_ne_zero hz)
        omega

/-- C3 witness: the shipped record of hash2 has 0 malicious and 10 clean
votes, and community_score returns 0 for it. -/
theorem C3_community_score_truncates_witness :
    community_score community_db "hash2" = some 0 := by
  have h := (C3_community_score_truncates community_db "hash2").2.1
    (VoteRecord.mk 0 10) (by decide) (by decide)
  simpa using h

/- ===================== Claims about quarantine deletion ===================== -/

/-- A concrete random oracle for evaluating secure_delete: byte b of pass i
is 100 * i + b. -/
def demoOracle (i b : Nat) : Nat := 100 * i + b

/-- C5: evaluation of secure_delete at a quarantined artifact of 4 bytes
with the default two passes. The file is truncated by the "wb" open and the
two 4-byte random blocks are written one after the other, so the content at
the moment of the unlink is 8 bytes long, its first 4 bytes are exactly the
pass-0 block, and the second pass never overwrote the first, let alone the
original artifact bytes. -/
theorem C5_secure_delete_passes_append :
    secure_delete_run demoOracle 2 (some [1, 2, 3, 4]) =
        (none, [0, 1, 2, 3, 100, 101, 102, 103]) ∧
      (overwrite_passes demoOracle 2 4).take 4 = urandom demoOracle 0 4 ∧
      (overwrite_passes demoOracle 2 4).length ≠ 4 := by
  refine ⟨?_, ?_, ?_⟩ <;> decide

/-- C6: the secure-delete endpoint on a digest with neither a quarantined
artifact nor a metadata sidecar reports success, leaves the filesystem
unchanged, and a second call behaves identically. -/
theorem C6_secure_delete_absent_noop (oracle : Nat → Nat → Nat) (fs : QFs)
    (ha : fs.artifact = none) (hm : fs.meta = none) :
    secure_delete_file oracle fs = (fs, "success") ∧
      secure_delete_file oracle (secure_delete_file oracle fs).1 = (fs, "success") := by
  have h1 : secure_delete_file oracle fs = (fs, "success") := by
    simp [secure_delete_file, ha, hm]
  exact ⟨h1, by rw [h1]; exact h1⟩

/-- C6 witness: the endpoint on the empty quarantine directory. -/
theorem C6_secure_delete_absent_noop_witness :
    secure_delete_file (fun _ _ => 0) (QFs.mk none none) = (QFs.mk none none, "success") :=
  (C6_secure_delete_absent_noop (fun _ _ => 0) (QFs.mk none none) rfl rfl).1

/- ===================== Claims about the reconstruct endpoint ===================== -/

/-- C4: in the reconstruct endpoint, a validation failure aborts before any
filesystem step runs (in particular before the upload is persisted); when
the selected sanitizer fails, the quarantine step never runs; and the
quarantine step runs only in a trace where the sanitizer succeeded, strictly
after the save, hash and sanitize steps. -/
theorem C4_reconstruct_ordering (f : String) (ok : Bool) (m : String) :
    (validate_file f = Except.error m → (reconstruct_file f ok).1 = []) ∧
    (ok = false → Ev.quarantine ∉ (reconstruct_file f ok).1) ∧
    (Ev.quarantine ∈ (reconstruct_file f ok).1 →
      ok = true ∧ (reconstruct_file f ok).1 = [Ev.save, Ev.hash, Ev.sanitize, Ev.quarantine]) := by
  cases hv : validate_file f with
  | error e =>
    refine ⟨fun _ => ?_, fun _ => ?_, fun hq => ?_⟩ <;>
      simp_all [reconstruct_file, hv]
  | ok ext =>
    refine ⟨fun he => ?_, fun hok => ?_, fun hq => ?_⟩
    · exact absurd he (by simp)
    · subst hok
      simp only [reconstruct_file, hv]
      split_ifs <;> simp_all
    · cases ok with
      | false =>
        exfalso
        revert hq
        simp only [reconstruct_file, hv]
        split_ifs <;> simp_all
      | true =>
        refine ⟨rfl, ?_⟩
        revert hq
        simp only [reconstruct_file, hv]
        split_ifs <;> simp_all

/-- C4 witness: an empty filename fails validation and the endpoint runs no
filesystem step at all. -/
theorem C4_reconstruct_ordering_witness : (reconstruct_file "" true).1 = [] :=
  (C4_reconstruct_ordering "" true "No filename provided").1 (by rfl)

/-- C10: every tag accepted by validate_file is one of the three lowercase
supported extensions, so the unsupported-file-type branch of the reconstruct
dispatch is unreachable whenever the tag comes from validate_file. -/
theorem C10_validate_file_tag (f e : String) (h : validate_file f = Except.ok e) :
    (e = ".pdf" ∨ e = ".docx" ∨ e = ".txt") ∧
      (∀ ok, (reconstruct_file f ok).2 ≠ some RError.unsupportedFileType) := by
  have hmem : e = ".pdf" ∨ e = ".docx" ∨ e = ".txt" := by
    unfold validate_file at h
    by_cases hf : f = ""
    · simp [hf] at h
    · simp only [hf, if_false] at h
      by_cases hc : ALLOWED_EXTENSIONS.contains (String.mk (splitextExt (f.data.map Char.toLower)))
      · rw [if_pos hc] at h
        have he : String.mk (splitextExt (f.data.map Char.toLower)) = e := by
          exact Except.ok.inj h
        rw [he] at hc
        simpa [ALLOWED_EXTENSIONS] using hc
      · rw [if_neg hc] at h
        exact absurd h (by simp)
  refine ⟨hmem, fun ok => ?_⟩
  simp only [reconstruct_file, h]
  rcases hmem with h1 | h1 | h1 <;> subst h1 <;> cases ok <;> simp

/-- C10 witness: validate_file accepts a.txt with the tag .txt, which is in
the supported set. -/
theorem C10_validate_file_tag_witness : ".txt" = ".pdf" ∨ ".txt" = ".docx" ∨ ".txt" = ".txt" :=
  (C10_validate_file_tag "a.txt" ".txt" (by rfl)).1

/- ===================== Claims about the docx sanitizer ===================== -/

/-- Unfolding of the paragraph-copy loop of sanitize_docx: the archive parts
of the accumulator are untouched and the text-only paragraphs are appended
in order. -/
lemma foldl_add_paragraph (ps : List Paragraph) (acc : DocxPackage) :
    ps.foldl (fun clean para => add_paragraph clean para.text) acc =
      DocxPackage.mk acc.parts
        (acc.paragraphs ++ ps.map (fun p => Paragraph.mk p.text false)) := by
  induction ps generalizing acc with
  | nil => simp
  | cons p t ih =>
    simp only [List.foldl_cons, List.map_cons]
    rw [ih]
    simp [add_paragraph]

/-- C8: the output of sanitize_docx carries exactly the text of the source
paragraphs in their original order, every output paragraph is text-only,
and the output archive has exactly the parts of the fresh minimal document,
which do not include the macro project part, whatever the input contained. -/
theorem C8_docx_sanitizer (source : DocxPackage) :
    (sanitize_docx source).paragraphs.map Paragraph.text =
        source.paragraphs.map Paragraph.text ∧
      (sanitize_docx source).paragraphs.all (fun p => !p.hasNonText) = true ∧
      (sanitize_docx source).parts = newDocument.parts ∧
      VBA_PART ∉ (sanitize_docx source).parts := by
  unfold sanitize_docx
  rw [foldl_add_paragraph]
  refine ⟨?_, ?_, rfl, ?_⟩
  · simp [newDocument]
  · simp [newDocument]
  · simp [newDocument, VBA_PART]

/- ===================== Claims about the pdf sanitizer ===================== -/

/-- C1 counterexample: a well-formed one-page document whose page carries an
additional-actions dictionary passes through sanitize_pdf with that
dictionary intact, because the code deletes the forbidden keys only at the
root; the surviving /AA is not at the root level. -/
theorem C1_pdf_sanitizer_counterexample :
    hasKeyEntries "/AA" (sanitize_pdf aaPageRoot) = true ∧
      topHasKey "/AA" (sanitize_pdf aaPageRoot) = false := by
  constructor <;> rfl

/-- The key of an entry never survives delKey for that key. -/
lemma topHasKey_delKey (k : String) (d : List (String × PObj)) :
    topHasKey k (delKey k d) = false := by
  induction d with
  | nil => rfl
  | cons p t ih =>
    by_cases hp : p.1 == k
    · simp only [delKey, topHasKey] at ih ⊢
      simp [List.filter_cons, hp, ih]
    · simp only [delKey, topHasKey] at ih ⊢
      simp [List.filter_cons, hp, ih]

/-- Deleting a key never makes another key appear. -/
lemma topHasKey_delKey_of_false (k k2 : String) (d : List (String × PObj))
    (h : topHasKey k d = false) : topHasKey k (delKey k2 d) = false := by
  induction d with
  | nil => rfl
  | cons p t ih =>
    simp only [topHasKey, List.any_cons, Bool.or_eq_false_iff] at h
    by_cases hp : p.1 == k2
    · simpa [delKey, List.filter_cons, hp] using ih h.2
    · simpa [topHasKey, delKey, List.filter_cons, hp, h.1] using ih h.2

/-- The first component of a root entry is unchanged by the names-cleanup
map of sanitize_pdf. -/
lemma namesStep_fst (p : String × PObj) :
    (if p.1 == "/Names" then (p.1, stripNamesJS p.2) else p).1 = p.1 := by
  by_cases hp : p.1 == "/Names" <;> simp [hp]

/-- The root-level key set is unchanged by the names-cleanup map of
sanitize_pdf, which only rewrites values. -/
lemma topHasKey_namesMap (k : String) (d : List (String × PObj)) :
    topHasKey k (d.map (fun p => if p.1 == "/Names" then (p.1, stripNamesJS p.2) else p)) =
      topHasKey k d := by
  induction d with
  | nil => rfl
  | cons p t ih =>
    simp only [List.map_cons, topHasKey, List.any_cons] at ih ⊢
    rw [namesStep_fst, ih]

/-- After the names-cleanup map of sanitize_pdf, no root entry keyed /Names
is a dictionary with a top-level /JavaScript entry. -/
lemma namesTreeHasJS_namesMap (d : List (String × PObj)) :
    namesTreeHasJS (d.map (fun p => if p.1 == "/Names" then (p.1, stripNamesJS p.2) else p)) =
      false := by
  induction d with
  | nil => rfl
  | cons p t ih =>
    simp only [List.map_cons, namesTreeHasJS, List.any_cons, Bool.or_eq_false_iff] at ih ⊢
    refine ⟨?_, ih⟩
    by_cases hp : p.1 == "/Names"
    · simp only [hp, if_true]
      cases h2 : p.2 with
      | prim => simp [stripNamesJS]
      | dict e => simp [stripNamesJS, topHasKey_delKey]
      | arr xs => simp [stripNamesJS]
    · simp [hp]

/-- C1 amended: for every root dictionary, the output of sanitize_pdf holds
no /OpenAction, /AA or /AcroForm entry at the root (document) level, and the
/Names dictionary of the root holds no /JavaScript entry; forbidden
constructs nested below the root, such as an additional-actions dictionary
on a page or annotation, are not removed. -/
theorem C1_pdf_root_sanitized (root : List (String × PObj)) :
    topHasKey "/OpenAction" (sanitize_pdf root) = false ∧
    topHasKey "/AA" (sanitize_pdf root) = false ∧
    topHasKey "/AcroForm" (sanitize_pdf root) = false ∧
    namesTreeHasJS (sanitize_pdf root) = false := by
  simp only [sanitize_pdf]
  refine ⟨?_, ?_, ?_, ?_⟩
  · rw [topHasKey_namesMap]
    exact topHasKey_delKey_of_false _ _ _
      (topHasKey_delKey_of_false _ _ _ (topHasKey_delKey _ _))
  · rw [topHasKey_namesMap]
    exact topHasKey_delKey_of_false _ _ _ (topHasKey_delKey _ _)
  · rw [topHasKey_namesMap]
    exact topHasKey_delKey _ _
  · exact namesTreeHasJS_namesMap _

/- ===================== Claims about the text sanitizer ===================== -/

/-- Every codepoint produced by the ignore-errors utf-8 decoder is a
unicode scalar value, whatever the input bytes. -/
lemma utf8DecodeIgnore_scalar (l : List Nat) :
    (utf8DecodeIgnore l).all isScalar = true := by
  induction l using utf8DecodeIgnore.induct <;>
    rw [utf8DecodeIgnore.eq_def] <;>
    (try simp_all [-not_lt, -Nat.not_lt]) <;>
    (try simp_all [contOk, isScalar, -not_lt, -Nat.not_lt]) <;>
    (try omega) <;>
    (split_ifs at * <;> omega)

/-- The universal-newline translation only replaces carriage returns with
line feeds, so it sends a stream of unicode scalar values to a stream of
unicode scalar values. -/
lemma universalNewlines_scalar (l : List Nat) (h : l.all isScalar = true) :
    (universalNewlines l).all isScalar = true := by
  induction l using universalNewlines.induct <;>
    simp_all [universalNewlines, isScalar]

/-- C9: sanitize_txt is total over all byte sequences, its output begins
with the fixed provenance banner, what follows the banner is exactly the
text-mode reading of the input (ignore-errors decoding followed by
universal-newline translation), and every codepoint of the output is a
unicode scalar value, so the output always writes out as text. -/
theorem C9_txt_sanitizer_total (source : List Nat) :
    (sanitize_txt source).take BANNER.length = BANNER ∧
    (sanitize_txt source).drop BANNER.length =
      universalNewlines (utf8DecodeIgnore source) ∧
    (sanitize_txt source).all isScalar = true := by
  refine ⟨?_, ?_, ?_⟩
  · simp [sanitize_txt]
  · simp [sanitize_txt]
  · simp only [sanitize_txt, List.all_append,
      universalNewlines_scalar _ (utf8DecodeIgnore_scalar source), Bool.and_true]
    decide
